import Mathlib

/-!
Verification of the rarime-rn-sdk identity pipeline.

This file gives a shallow embedding of the passport-key derivation,
hash-algorithm registry, eligibility validation and registration
orchestration of the SDK (src/src/RarimePassport.ts, src/src/Rarime.ts,
src/src/Freedomtool.ts, src/src/helpers/HashAlgorithm.ts), and proves the
frozen claims about them.

Bytes are modelled as `Nat` values (a `Uint8Array` entry is `< 256`; where
a claim depends on that bound it appears as a hypothesis).  External
library calls (the Poseidon hash from iden3 js-crypto, the noble SHA
digests, and the ASN.1 / ICAO document parsers from tsemrtd and asn1js)
are deterministic foreign functions; they are modelled as fields of an
`Externals` record that every embedded repository function receives, so
theorems quantify over them.
-/

instance {ε α : Type} [DecidableEq ε] [DecidableEq α] :
    DecidableEq (Except ε α) := fun a b =>
  match a, b with
  | .ok x, .ok y =>
      if h : x = y then .isTrue (by rw [h])
      else .isFalse (fun hh => h (Except.ok.inj hh))
  | .error x, .error y =>
      if h : x = y then .isTrue (by rw [h])
      else .isFalse (fun hh => h (Except.error.inj hh))
  | .ok _, .error _ => .isFalse (fun hh => Except.noConfusion hh)
  | .error _, .ok _ => .isFalse (fun hh => Except.noConfusion hh)

namespace Rarime

/-- A byte string: each entry stands for one `Uint8Array` element. -/
abbrev Bytes := List Nat

/-- Big-endian byte interpretation, the value of `BigInt("0x" + hex(l))`
for a byte list `l`. -/
def beBytesToNat (l : Bytes) : Nat :=
  l.foldl (fun a b => 256 * a + b) 0

/-! ## Hash/Algorithm registry (src/src/helpers/HashAlgorithm.ts) -/

/-- `HashAlgorithmType` enum from HashAlgorithm.ts. -/
inductive HashAlgorithmType
  | SHA1 | SHA224 | SHA256 | SHA384 | SHA512
deriving DecidableEq, Repr

/-- `SignatureAlgorithmType` enum from HashAlgorithm.ts
(RSA, RSA-PSS, ECDSA families). -/
inductive SignatureAlgorithmType
  | RSA | RsaPss | ECDSA
deriving DecidableEq, Repr

namespace HashAlgorithm

/-- `HashAlgorithm.getByteLength` from the source: despite the name it
returns the digest size in bits. -/
def getByteLength : HashAlgorithmType → Nat
  | .SHA1 => 160
  | .SHA224 => 224
  | .SHA256 => 256
  | .SHA384 => 384
  | .SHA512 => 512

/-- `HashAlgorithm.fromOid` from the source: the OID switch.  A `throw`
becomes `Except.error` carrying the thrown message. -/
def fromOid (oid : String) : Except String HashAlgorithmType :=
  if oid = "1.3.14.3.2.26" then .ok .SHA1
  else if oid = "1.2.840.113549.1.1.5" then .ok .SHA1
  else if oid = "2.16.840.1.101.3.4.2.4" then .ok .SHA224
  else if oid = "1.2.840.113549.1.1.14" then .ok .SHA224
  else if oid = "1.2.840.10045.4.3.1" then .ok .SHA224
  else if oid = "2.16.840.1.101.3.4.2.1" then .ok .SHA256
  else if oid = "1.2.840.113549.1.1.11" then .ok .SHA256
  else if oid = "1.2.840.10045.4.3.2" then .ok .SHA256
  else if oid = "2.16.840.1.101.3.4.2.2" then .ok .SHA384
  else if oid = "1.2.840.113549.1.1.12" then .ok .SHA384
  else if oid = "1.2.840.10045.4.3.3" then .ok .SHA384
  else if oid = "2.16.840.1.101.3.4.2.3" then .ok .SHA512
  else if oid = "1.2.840.113549.1.1.13" then .ok .SHA512
  else if oid = "1.2.840.10045.4.3.4" then .ok .SHA512
  else .error ("Not supported ObjectIdentifier for hash algorithm: " ++ oid)

/-- The OID strings `fromOid` recognises, in source order. -/
def supportedHashOids : List String :=
  [ "1.3.14.3.2.26", "1.2.840.113549.1.1.5",
    "2.16.840.1.101.3.4.2.4", "1.2.840.113549.1.1.14", "1.2.840.10045.4.3.1",
    "2.16.840.1.101.3.4.2.1", "1.2.840.113549.1.1.11", "1.2.840.10045.4.3.2",
    "2.16.840.1.101.3.4.2.2", "1.2.840.113549.1.1.12", "1.2.840.10045.4.3.3",
    "2.16.840.1.101.3.4.2.3", "1.2.840.113549.1.1.13", "1.2.840.10045.4.3.4" ]

end HashAlgorithm

namespace SignatureAlgorithm

/-- `SignatureAlgorithm.fromOID` from the source: the OID switch mapping
signature OIDs to scheme families. -/
def fromOID (oid : String) : Except String SignatureAlgorithmType :=
  if oid = "1.2.840.113549.1.1.5" then .ok .RSA
  else if oid = "1.2.840.113549.1.1.14" then .ok .RSA
  else if oid = "1.2.840.113549.1.1.11" then .ok .RSA
  else if oid = "1.2.840.113549.1.1.12" then .ok .RSA
  else if oid = "1.2.840.113549.1.1.13" then .ok .RSA
  else if oid = "1.2.840.113549.1.1.1" then .ok .RSA
  else if oid = "1.2.840.113549.1.1.10" then .ok .RsaPss
  else if oid = "1.2.840.10045.4.3.1" then .ok .ECDSA
  else if oid = "1.2.840.10045.4.3.2" then .ok .ECDSA
  else if oid = "1.2.840.10045.4.3.3" then .ok .ECDSA
  else if oid = "1.2.840.10045.4.3.4" then .ok .ECDSA
  else .error ("Not supported ObjectIdentifier for signature algorithm: " ++ oid)

/-- The OID strings `fromOID` recognises, in source order. -/
def supportedSigOids : List String :=
  [ "1.2.840.113549.1.1.5", "1.2.840.113549.1.1.14", "1.2.840.113549.1.1.11",
    "1.2.840.113549.1.1.12", "1.2.840.113549.1.1.13", "1.2.840.113549.1.1.1",
    "1.2.840.113549.1.1.10",
    "1.2.840.10045.4.3.1", "1.2.840.10045.4.3.2",
    "1.2.840.10045.4.3.3", "1.2.840.10045.4.3.4" ]

end SignatureAlgorithm

/-! ## External collaborators -/

/-- A parsed `SubjectPublicKeyInfo`, the result of `DG15.load`. -/
structure SPKI where
  algorithmOid : String
  subjectPublicKey : Bytes
deriving Repr

/-- Modulus/exponent of an RSA public key, as recovered by the asn1js
parse inside `parseDg15Pubkey`. -/
structure RsaKey where
  modulus : Nat
  exponent : Nat
deriving Repr

/-- The deterministic foreign functions the SDK composes: the Poseidon
hash, the noble SHA digest family, and the ASN.1 document parsers
(tsemrtd `DG15.load` / `SOD.load`, asn1js).  Parsers that can fail return
`Except`. -/
structure Externals where
  poseidon : List Nat → Nat
  digest : HashAlgorithmType → Bytes → Bytes
  dg15Load : Bytes → Except String SPKI
  rsaKeyParse : Bytes → Except String RsaKey
  sodSignedAttrs : Bytes → Except String Bytes
  sodSigAlgOid : Bytes → Except String String

/-- `HashAlgorithm.getHashFixed32` from the source: run the
OID-selected digest, then copy its first `min length 32` bytes into a
fresh 32-byte zero buffer. -/
def getHashFixed32 (ext : Externals) (t : HashAlgorithmType) (data : Bytes) :
    Bytes :=
  let digest := ext.digest t data
  let len := min digest.length 32
  digest.take len ++ List.replicate (32 - len) 0

/-- Native digest sizes, in bytes, of the noble hash functions the
registry dispatches to (sha1 20, sha224 28, sha256 32, sha384 48,
sha512 64). -/
def nativeDigestBytes : HashAlgorithmType → Nat
  | .SHA1 => 20
  | .SHA224 => 28
  | .SHA256 => 32
  | .SHA384 => 48
  | .SHA512 => 64

/-! ## Hex rendering (JS `toString(16)` / `BigInt("0x...")`) -/

/-- One lowercase hexadecimal digit character, as JS `toString(16)`
produces. -/
def hexDigitChar (d : Nat) : Char :=
  if d < 10 then Char.ofNat (48 + d) else Char.ofNat (87 + d)

/-- `b.toString(16).padStart(2, "0")` for a byte `b < 256`: exactly two
hex characters. -/
def byteToHexPadded (b : Nat) : List Char :=
  [hexDigitChar (b / 16), hexDigitChar (b % 16)]

/-- Numeric value of one hex character. -/
def hexCharVal (c : Char) : Nat :=
  if 97 ≤ c.toNat then c.toNat - 87 else c.toNat - 48

/-- Value of a hex string, as `BigInt("0x" + s)` computes it. -/
def hexToNat (l : List Char) : Nat :=
  l.foldl (fun a c => 16 * a + hexCharVal c) 0

/-- The hex string `Array.from(bytes, b => b.toString(16).padStart(2,
"0")).join("")`. -/
def bytesToHex (l : Bytes) : List Char :=
  (l.map byteToHexPadded).flatten

/-- Hex digit characters of `n`, most significant first, empty for 0. -/
def natHexDigits (n : Nat) : List Char :=
  if h : n = 0 then []
  else natHexDigits (n / 16) ++ [hexDigitChar (n % 16)]
termination_by n
decreasing_by exact Nat.div_lt_self (Nat.pos_of_ne_zero h) (by norm_num)

/-- JS `n.toString(16)` for a nonnegative BigInt. -/
def jsHexString (n : Nat) : List Char :=
  if n = 0 then ['0'] else natHexDigits n

/-- `toPaddedHex32` from src/src/utils/hex.ts:
`"0x" + BigInt(input).toString(16).padStart(64, "0")`. -/
def toPaddedHex32 (n : Nat) : String :=
  let s := jsHexString n
  "0x" ++ String.mk (List.replicate (64 - s.length) '0' ++ s)

/-! ## Identity key derivation (src/src/RarimePassport.ts) -/

/-- `ActiveAuthKey` from RarimePassport.ts. -/
inductive ActiveAuthKey
  | rsa (modulus exponent : Nat)
  | ecdsa (keyBytes : Bytes)
deriving Repr

/-- The immutable document value (`RarimePassportProps`). -/
structure RarimePassport where
  dataGroup1 : Bytes
  sod : Bytes
  dataGroup15 : Option Bytes := none
  aaSignature : Option Bytes := none
  aaChallenge : Option Bytes := none

namespace RarimePassport

/-- `extractEcdsaPassportKey`: demand a 65-byte uncompressed point with
leading `0x04`, hex-render the X and Y halves, parse them back as
big-endian integers, reduce mod `2 ^ 248` and Poseidon-hash the pair. -/
def extractEcdsaPassportKey (ext : Externals) (keyBytes : Bytes) :
    Except String Nat :=
  if keyBytes.length ≠ 65 ∨ keyBytes.head? ≠ some 4 then
    .error "UnsupportedPassportKey: Invalid ECDSA key format"
  else
    let xBytes := (keyBytes.drop 1).take 32
    let yBytes := (keyBytes.drop 33).take 32
    let x := hexToNat (bytesToHex xBytes)
    let y := hexToNat (bytesToHex yBytes)
    let modulus := 2 ^ 248
    .ok (ext.poseidon [x % modulus, y % modulus])

/-- `modulus.toString(2).length`: the JS binary-string length (1 for 0,
otherwise the bit length). -/
def jsBitLength (m : Nat) : Nat :=
  if m = 0 then 1 else Nat.size m

/-- The chunk sizes of the RSA decomposition, in extraction
(least-significant-first) order. -/
def chunkSizes : List Nat := [224, 200, 200, 200, 200]

/-- The 5 chunks `extractRsaPassportKey` feeds to Poseidon: keep the top
1024 bits of the modulus, peel chunks of `chunkSizes` bits starting at
the least-significant end (`chunk = topBits & (2^size - 1)` is
`topBits % 2^size`, `topBits >>= size` is division), then reverse.  -/
def rsaChunks (modulus : Nat) : List Nat :=
  let topBits := modulus / 2 ^ (jsBitLength modulus - 1024)
  ((chunkSizes.foldl
      (fun (s : List Nat × Nat) sz => (s.1 ++ [s.2 % 2 ^ sz], s.2 / 2 ^ sz))
      ([], topBits)).1).reverse

/-- `extractRsaPassportKey`: reject moduli shorter than 1024 bits,
otherwise Poseidon-hash the 5 reversed chunks. -/
def extractRsaPassportKey (ext : Externals) (modulus _exponent : Nat) :
    Except String Nat :=
  if jsBitLength modulus < 1024 then
    .error "UnsupportedPassportKey: Modulus too short"
  else
    .ok (ext.poseidon (rsaChunks modulus))

/-- Bit `i` of the digest in MSB-first indexing:
`(hashBytes[i / 8] >> (7 - i % 8)) & 1`. -/
def digestBit (hashBytes : Bytes) (i : Nat) : Nat :=
  hashBytes.getD (i / 8) 0 / 2 ^ (7 - i % 8) % 2

/-- One iteration of the packing loop in `getPassportHash`, on state
`(out, acc, accBits)`. -/
def packStep (hashBytes : Bytes) (s : Nat × Nat × Nat) (i : Nat) :
    Nat × Nat × Nat :=
  let bit := digestBit hashBytes i
  let acc := s.2.1 * 2 + bit
  let accBits := s.2.2 + 1
  if accBits = 64 then (s.1 * 2 ^ 64 + acc, 0, 0) else (s.1, acc, accBits)

/-- The packing loop of `getPassportHash`: iterate `i` from 251 down
to 0, shifting each digest bit into `acc`, flushing `acc` into `out`
every 64 bits, and appending the 60-bit remainder at the end. -/
def packBits252 (hashBytes : Bytes) : Nat :=
  let s := (List.range 252).reverse.foldl (packStep hashBytes) (0, 0, 0)
  if 0 < s.2.2 then s.1 * 2 ^ s.2.2 + s.2.1 else s.1

/-- `getSignatureAlgorithm`: read the signer-info signature-algorithm
OID from the SOD and demand the `1.2.840.` namespace
(`oid.startsWith "1.2.840.")`, stated on the character list). -/
def getSignatureAlgorithm (ext : Externals) (sod : Bytes) :
    Except String String := do
  let oid ← ext.sodSigAlgOid sod
  if "1.2.840.".data.isPrefixOf oid.data then pure oid
  else .error "Signature algorithm OID does not start with 1.2.840."

/-- `getPassportHash`: digest the extracted signed attributes with the
OID-resolved hash, pack 252 digest bits, Poseidon-hash the single
value. -/
def getPassportHash (ext : Externals) (sod : Bytes) : Except String Nat := do
  let signedAttributes ← ext.sodSignedAttrs sod
  let oid ← getSignatureAlgorithm ext sod
  let hashBlock ← HashAlgorithm.fromOid oid
  let hashBytes := getHashFixed32 ext hashBlock signedAttributes
  pure (ext.poseidon [packBits252 hashBytes])

/-- `parseDg15Pubkey`: load the `SubjectPublicKeyInfo`, strip a leading
zero (BIT STRING unused-bits) octet, and dispatch on the key OID. -/
def parseDg15Pubkey (ext : Externals) (dg15 : Bytes) :
    Except String ActiveAuthKey := do
  let spki ← ext.dg15Load dg15
  let spkBytes :=
    if spki.subjectPublicKey.head? = some 0 then spki.subjectPublicKey.drop 1
    else spki.subjectPublicKey
  if spki.algorithmOid = "1.2.840.113549.1.1.1" then do
    let k ← ext.rsaKeyParse spkBytes
    pure (.rsa k.modulus k.exponent)
  else if spki.algorithmOid = "1.2.840.10045.2.1" then
    pure (.ecdsa spkBytes)
  else
    .error ("Unsupported public key algorithm OID: " ++ spki.algorithmOid)

/-- The active-authentication derivation path of `getPassportKey`:
parse DG15 and dispatch to the ECDSA or RSA extraction. -/
def activeAuthDerivation (ext : Externals) (dg15 : Bytes) :
    Except String Nat := do
  let key ← parseDg15Pubkey ext dg15
  match key with
  | .ecdsa keyBytes => extractEcdsaPassportKey ext keyBytes
  | .rsa m e => extractRsaPassportKey ext m e

/-- `getPassportKey`: with `dataGroup15` present derive from the
active-authentication key, otherwise fall back to `getPassportHash`. -/
def getPassportKey (ext : Externals) (p : RarimePassport) :
    Except String Nat :=
  match p.dataGroup15 with
  | some dg15 => activeAuthDerivation ext dg15
  | none => getPassportHash ext p.sod

/-- The packed value as claim C5 words it: take the most-significant 252
bits of the digest and repack them MSB-first into 64-bit big-endian
words concatenated into one big integer — i.e. digest bit 0 (the overall
MSB) becomes the packed value's MSB, bit 251 its LSB.  Stated for
comparison with the packing loop `packBits252` the source runs. -/
def msbFirstPacked252 (hashBytes : Bytes) : Nat :=
  ∑ i ∈ Finset.range 252, digestBit hashBytes i * 2 ^ (251 - i)

/-- The value the packing loop actually produces (proved below): digest
bit `i` (MSB-first indexing) lands at binary weight `2 ^ i`, so the
packed integer is the bit-reversal of the most-significant 252 bits of
the digest. -/
def reversedPacked252 (hashBytes : Bytes) : Nat :=
  ∑ i ∈ Finset.range 252, digestBit hashBytes i * 2 ^ i

end RarimePassport

/-! ## Event nullifier (src/src/Rarime.ts) -/

/-- `Rarime.getEventNullifier`: `sk` is the caller's private scalar (the
value of `BigInt("0x" + userPrivateKey)`). -/
def getEventNullifier (ext : Externals) (sk eventId : Nat) : String :=
  let privateKeyPoseidonHash := ext.poseidon [sk]
  let eventData := ext.poseidon [sk, privateKeyPoseidonHash, eventId]
  toPaddedHex32 eventData

/-! ## Proposal eligibility validation
(src/src/Freedomtool.ts `validate`, src/src/Rarime.ts `validate`,
src/src/RarimePassport.ts `verifyPassport`) -/

/-- Modelled from the spec: `MRZ_ZERO_DATE`, the canonical "disabled"
date sentinel exported by the Freedomtool module and imported by
RarimePassport.ts; its definition site is not among the captured
sources.  Per the spec it is the all-zero MRZ date encoding, the
big-endian integer of ASCII "000000", which is the literal
`52983525027888n` the sibling source variant compares against. -/
def MRZ_ZERO_DATE : Nat := 52983525027888

/-- The declared proposal criteria (`ProposalInfo.criteria`), with every
field already carried as the numeric value the contracts return. -/
structure Criteria where
  citizenshipWhitelist : List Nat
  sex : Nat
  birthDateLowerbound : Nat
  birthDateUpperbound : Nat
  expirationDateLowerbound : Nat
  timestampUpperbound : Nat
  identityCountUpperbound : Nat

/-- The proposal fields the validator reads. -/
structure ProposalInfo where
  criteria : Criteria
  startTimestamp : Nat
  duration : Nat

/-- The MRZ fields of the document, already converted to the numeric
values the comparisons use: `issuingCountry` and `expiryDate` as the
big-endian integer of their ASCII bytes (`BigInt("0x" + hex)`), `sex`
and `birthDate` as the value of the `BigInt(...)` conversion. -/
structure MrzNums where
  issuingCountry : Nat
  sex : Nat
  birthDate : Nat
  expiryDate : Nat

/-- The on-chain identity metadata the validator reads:
`identityInfo.issueTimestamp` and `passportInfo.identityReissueCounter`. -/
structure IdentityMeta where
  issueTimestamp : Nat
  identityReissueCounter : Nat

/-- Names for the sequential checks of the voting validation flow, in
source order: the two timing guards of `Freedomtool.validate`, the two
identity-metadata guards of `Rarime.validate`, the five criteria guards
of `RarimePassport.verifyPassport`, and the final duplicate-vote SMT
lookup. -/
inductive VoteCheck
  | timingStart | timingEnd
  | identityTimestamp | identityCounter
  | citizenship | sexCheck | birthLower | birthUpper | expirationLower
  | smtDuplicate
deriving DecidableEq, Repr

/-- Run a list of `(name, failCondition, errorMessage)` guards in order,
stopping at the first failure; also return the list of guards that were
evaluated. -/
def runChecks : List (VoteCheck × Bool × String) →
    Except String Unit × List VoteCheck
  | [] => (.ok (), [])
  | (name, failed, msg) :: rest =>
      if failed then (.error msg, [name])
      else
        let r := runChecks rest
        (r.1, name :: r.2)

/-- The guard list of the voting validation flow, one entry per
`if (...) throw` in the source, in execution order
(`Freedomtool.validate` → `Rarime.validate` →
`RarimePassport.verifyPassport` → `isAlreadyVoted`). -/
def voteCheckList (now : Nat) (p : ProposalInfo) (idMeta : IdentityMeta)
    (mrz : MrzNums) (alreadyVoted : Bool) :
    List (VoteCheck × Bool × String) :=
  [ (.timingStart, now < p.startTimestamp, "Voting has not started."),
    (.timingEnd, p.startTimestamp + p.duration < now, "Voting has ended."),
    (.identityTimestamp, p.criteria.timestampUpperbound < idMeta.issueTimestamp,
      "Timestamp creation identity is bigger then upperbound"),
    (.identityCounter,
      p.criteria.identityCountUpperbound < idMeta.identityReissueCounter,
      "Identity counter is bigger then upperbound"),
    (.citizenship,
      p.criteria.citizenshipWhitelist ≠ [] ∧
        mrz.issuingCountry ∉ p.criteria.citizenshipWhitelist,
      "Citizen is not in whitelist"),
    (.sexCheck, p.criteria.sex ≠ 0 ∧ p.criteria.sex ≠ mrz.sex,
      "Sex mismatch"),
    (.birthLower,
      p.criteria.birthDateLowerbound ≠ MRZ_ZERO_DATE ∧
        mrz.birthDate < p.criteria.birthDateLowerbound,
      "Birth date is lower than lowerbound"),
    (.birthUpper,
      p.criteria.birthDateUpperbound ≠ MRZ_ZERO_DATE ∧
        p.criteria.birthDateUpperbound < mrz.birthDate,
      "Birth date is higher than upperbound"),
    (.expirationLower,
      p.criteria.expirationDateLowerbound ≠ MRZ_ZERO_DATE ∧
        mrz.expiryDate < p.criteria.expirationDateLowerbound,
      "Expiration date is lower than lowerbound"),
    (.smtDuplicate, alreadyVoted, "User has already voted") ]

/-- `Freedomtool.validate` (with `Rarime.validate` and the passport
criteria checks inlined in call order): result of the flow plus the
trace of guards that were evaluated.  `alreadyVoted` is the
pre-determined answer of the duplicate-vote SMT lookup; it only enters
the result when the `smtDuplicate` guard is evaluated. -/
def validateVoting (now : Nat) (p : ProposalInfo) (idMeta : IdentityMeta)
    (mrz : MrzNums) (alreadyVoted : Bool) :
    Except String Unit × List VoteCheck :=
  runChecks (voteCheckList now p idMeta mrz alreadyVoted)

/-- The canonical order of the voting guards. -/
def voteCheckOrder : List VoteCheck :=
  [ .timingStart, .timingEnd, .identityTimestamp, .identityCounter,
    .citizenship, .sexCheck, .birthLower, .birthUpper, .expirationLower,
    .smtDuplicate ]

/-! ## Registration orchestration (src/src/Rarime.ts) -/

/-- `DocumentStatus` enum from RarimePassport.ts. -/
inductive DocumentStatus
  | notRegistered | registeredWithThisPk | registeredWithOtherPk
deriving DecidableEq, Repr

/-- The zero-value sentinel `ZERO_BYTES_STRING` of
`Rarime.getDocumentStatus`: `"0x"` followed by the 64 bytes of
`ZERO_BYTES` each rendered as `"0"`. -/
def zeroBytesString : String :=
  "0x" ++ String.mk (List.replicate 64 '0')

/-- `Rarime.getDocumentStatus` classification of the registry's
active-identity value for the derived passport key against the
zero-value sentinel and the caller's own key. -/
def getDocumentStatus (activeIdentity userPrivateKey : String) :
    DocumentStatus :=
  if activeIdentity = zeroBytesString then .notRegistered
  else if activeIdentity = userPrivateKey then .registeredWithThisPk
  else .registeredWithOtherPk

/-- Names for the external steps of the registration flow: the on-chain
status read, circuit selection, the prover invocation, the
SOD-verification relayer request and the transaction relayer request. -/
inductive RegStep
  | checkStatus | selectCircuit | proveCall | verifySodCall | sendTxCall
deriving DecidableEq, Repr

/-- The environment responses `registerIdentity` consumes, pre-fetched:
the registry's active identity for the document's passport key, the
data-group hash OID extracted from the SOD, the prover's output, the
relayer responses. -/
structure RegEnv where
  activeIdentity : String
  userPrivateKey : String
  dgHashAlgoOid : String
  proveOk : Bool
  verifySodOk : Bool
  sendTxOk : Bool
  txId : String

/-- `Rarime.registerIdentity`: classify the document status and throw on
either registered state; otherwise resolve the data-group hash
algorithm, select the `register_light_` circuit by digest bit length,
prove, post to the SOD-verification relayer, build calldata and post to
the transaction relayer.  Returns the flow result and the trace of
external steps reached; every network or prover failure is fatal. -/
def registerIdentity (env : RegEnv) : Except String String × List RegStep :=
  let status := getDocumentStatus env.activeIdentity env.userPrivateKey
  if status = .registeredWithOtherPk then
    (.error "This document was registered with other Private Key",
      [.checkStatus])
  else if status = .registeredWithThisPk then
    (.error "This document was registered with this Private Key",
      [.checkStatus])
  else
    match HashAlgorithm.fromOid env.dgHashAlgoOid with
    | .error e => (.error e, [.checkStatus])
    | .ok hashAlgo =>
      let _circuitName :=
        "register_light_" ++ toString (HashAlgorithm.getByteLength hashAlgo)
      if ¬ env.proveOk then
        (.error "proof generation failed",
          [.checkStatus, .selectCircuit, .proveCall])
      else if ¬ env.verifySodOk then
        (.error "HTTP error",
          [.checkStatus, .selectCircuit, .proveCall, .verifySodCall])
      else if ¬ env.sendTxOk then
        (.error "HTTP error",
          [.checkStatus, .selectCircuit, .proveCall, .verifySodCall,
            .sendTxCall])
      else
        (.ok env.txId,
          [.checkStatus, .selectCircuit, .proveCall, .verifySodCall,
            .sendTxCall])

/-- A concrete `Externals` instance used to evaluate theorems on witness
inputs: a toy, non-cryptographic stand-in for each foreign function. -/
def extW : Externals where
  poseidon l := l.sum + 1
  digest t data := List.replicate (nativeDigestBytes t) ((data.length + 1) % 256)
  dg15Load b := .ok ⟨"1.2.840.10045.2.1", b⟩
  rsaKeyParse b := .ok ⟨beBytesToNat b, 65537⟩
  sodSignedAttrs b := .ok b
  sodSigAlgOid _ := .ok "1.2.840.113549.1.1.11"

/-- A concrete registration environment whose registry active identity
is nonzero and differs from the caller's key; used as witness input. -/
def regEnvW : RegEnv where
  activeIdentity := "0xffff"
  userPrivateKey := "aaaa"
  dgHashAlgoOid := "2.16.840.1.101.3.4.2.1"
  proveOk := true
  verifySodOk := true
  sendTxOk := true
  txId := "42"

/-- A concrete 65-byte uncompressed ECDSA point used as witness input:
leading `0x04`, then 32 bytes of X and 32 bytes of Y. -/
def ecdsaKeyW : Bytes :=
  4 :: (List.replicate 32 1 ++ List.replicate 32 2)

/-- A concrete `Externals` instance whose digest is the 32-byte string
`80 00 ... 00` and whose Poseidon stand-in is the head of its input;
used to exhibit the packing counterexample. -/
def extC : Externals where
  poseidon l := l.headD 0
  digest _ _ := 128 :: List.replicate 31 0
  dg15Load b := .ok ⟨"1.2.840.10045.2.1", b⟩
  rsaKeyParse b := .ok ⟨beBytesToNat b, 65537⟩
  sodSignedAttrs b := .ok b
  sodSigAlgOid _ := .ok "1.2.840.113549.1.1.11"

end Rarime

namespace Rarime

/-! ## Helper lemmas -/

theorem natHexDigits_length_le (k : Nat) :
    ∀ n, n < 16 ^ k → (natHexDigits n).length ≤ k := by
  induction k with
  | zero =>
      intro n hn
      interval_cases n
      rw [natHexDigits]
      simp
  | succ k ih =>
      intro n hn
      rw [natHexDigits]
      split
      · simp
      · rename_i h
        have hlt : n / 16 < 16 ^ k := by
          rw [Nat.div_lt_iff_lt_mul (by norm_num)]
          calc n < 16 ^ (k + 1) := hn
            _ = 16 ^ k * 16 := by ring
        have := ih (n / 16) hlt
        simp only [List.length_append, List.length_cons, List.length_nil]
        omega

theorem jsHexString_length_le (n : Nat) (h : n < 2 ^ 256) :
    (jsHexString n).length ≤ 64 := by
  have h' : n < 16 ^ 64 := by
    calc n < 2 ^ 256 := h
      _ = 16 ^ 64 := by norm_num
  unfold jsHexString
  split
  · simp
  · exact natHexDigits_length_le 64 n h'

theorem hexCharVal_hexDigitChar (d : Nat) (h : d < 16) :
    hexCharVal (hexDigitChar d) = d := by
  interval_cases d <;> rfl

theorem hexFold_bytesToHex (l : Bytes) :
    ∀ a, (∀ b ∈ l, b < 256) →
      (bytesToHex l).foldl (fun a c => 16 * a + hexCharVal c) a
        = l.foldl (fun a b => 256 * a + b) a := by
  induction l with
  | nil => intro a _; rfl
  | cons b l ih =>
      intro a hb
      have hb0 : b < 256 := hb b (List.mem_cons_self b l)
      have hhi : b / 16 < 16 := by omega
      have hlo : b % 16 < 16 := Nat.mod_lt _ (by norm_num)
      have hrest : ∀ x ∈ l, x < 256 := fun x hx => hb x (List.mem_cons_of_mem _ hx)
      show ((byteToHexPadded b ++ bytesToHex l).foldl _ a) = _
      rw [List.foldl_append]
      have hhead :
          (byteToHexPadded b).foldl (fun a c => 16 * a + hexCharVal c) a
            = 256 * a + b := by
        simp only [byteToHexPadded, List.foldl_cons, List.foldl_nil,
          hexCharVal_hexDigitChar _ hhi, hexCharVal_hexDigitChar _ hlo]
        omega
      rw [hhead, ih (256 * a + b) hrest]
      rfl

theorem hexToNat_bytesToHex (l : Bytes) (h : ∀ b ∈ l, b < 256) :
    hexToNat (bytesToHex l) = beBytesToNat l :=
  hexFold_bytesToHex l 0 h

/-! ## Claim C1 -/

/-- C1: the passport-key derivation is deterministic — it is a pure
function of the document byte content `(dataGroup1, sod, dataGroup15)`
and the fixed deterministic foreign functions, so any two documents
agreeing on those bytes (even if they differ in `aaSignature` or
`aaChallenge`) derive the same key, and repeated calls on one document
trivially agree. -/
theorem passportKey_deterministic (ext : Externals) (p q : RarimePassport)
    (h1 : p.dataGroup1 = q.dataGroup1) (h2 : p.sod = q.sod)
    (h3 : p.dataGroup15 = q.dataGroup15) :
    RarimePassport.getPassportKey ext p = RarimePassport.getPassportKey ext q := by
  simp only [RarimePassport.getPassportKey, h2, h3]

theorem passportKey_deterministic_witness :
    RarimePassport.getPassportKey extW
        ⟨[1], [2], none, some [9], none⟩
      = RarimePassport.getPassportKey extW
        ⟨[1], [2], none, none, some [7]⟩ :=
  passportKey_deterministic extW _ _ rfl rfl rfl

/-! ## Claim C2 -/

/-- C2: the two derivation paths are mutually exclusive, selected by
presence of `dataGroup15`.  With `dataGroup15` present the key is the
active-authentication derivation, and the result does not depend on the
signed-attributes machinery (any two external environments agreeing on
Poseidon and the DG15/RSA parsers — but arbitrary on the digest and SOD
parsers the fallback uses — give the same key); with `dataGroup15`
absent the key is exactly `getPassportHash`, and the result does not
depend on the DG15/RSA parsers the active-auth path uses. -/
theorem passportKey_branch_exclusive (ext ext2 : Externals)
    (p : RarimePassport) (hpos : ext.poseidon = ext2.poseidon) :
    (∀ dg15, p.dataGroup15 = some dg15 →
      RarimePassport.getPassportKey ext p
          = RarimePassport.activeAuthDerivation ext dg15 ∧
      (ext.dg15Load = ext2.dg15Load → ext.rsaKeyParse = ext2.rsaKeyParse →
        RarimePassport.getPassportKey ext p
          = RarimePassport.getPassportKey ext2 p)) ∧
    (p.dataGroup15 = none →
      RarimePassport.getPassportKey ext p
          = RarimePassport.getPassportHash ext p.sod ∧
      (ext.digest = ext2.digest → ext.sodSignedAttrs = ext2.sodSignedAttrs →
        ext.sodSigAlgOid = ext2.sodSigAlgOid →
        RarimePassport.getPassportKey ext p
          = RarimePassport.getPassportKey ext2 p)) := by
  constructor
  · intro dg15 hdg
    constructor
    · simp only [RarimePassport.getPassportKey, hdg]
    · intro hload hparse
      simp only [RarimePassport.getPassportKey, hdg,
        RarimePassport.activeAuthDerivation, RarimePassport.parseDg15Pubkey,
        RarimePassport.extractEcdsaPassportKey,
        RarimePassport.extractRsaPassportKey, hpos, hload, hparse]
  · intro hdg
    constructor
    · simp only [RarimePassport.getPassportKey, hdg]
    · intro hdig hsa hoid
      simp only [RarimePassport.getPassportKey, hdg,
        RarimePassport.getPassportHash,
        RarimePassport.getSignatureAlgorithm, getHashFixed32,
        hpos, hdig, hsa, hoid]

theorem passportKey_branch_exclusive_witness :
    RarimePassport.getPassportKey extW ⟨[1], [2], some [4, 5], none, none⟩
        = RarimePassport.activeAuthDerivation extW [4, 5] ∧
    RarimePassport.getPassportKey extW ⟨[1], [2], none, none, none⟩
        = RarimePassport.getPassportHash extW [2] :=
  ⟨((passportKey_branch_exclusive extW extW _ rfl).1 [4, 5] rfl).1,
   ((passportKey_branch_exclusive extW extW _ rfl).2 rfl).1⟩

/-! ## Claim C6 -/

/-- C6: `getHashFixed32` always returns exactly 32 bytes whatever the
OID-selected hash: a native digest of at most 32 bytes (SHA-1: 20,
SHA-224: 28, SHA-256: 32) is copied and zero-padded at the end, a
longer one (SHA-384: 48, SHA-512: 64) is truncated to its first 32
bytes. -/
theorem hashFixed32_spec (ext : Externals) (t : HashAlgorithmType)
    (data : Bytes)
    (hlen : (ext.digest t data).length = nativeDigestBytes t) :
    (getHashFixed32 ext t data).length = 32 ∧
    (nativeDigestBytes t ≤ 32 →
      getHashFixed32 ext t data
        = ext.digest t data ++ List.replicate (32 - nativeDigestBytes t) 0) ∧
    (32 ≤ nativeDigestBytes t →
      getHashFixed32 ext t data = (ext.digest t data).take 32) := by
  refine ⟨?_, ?_, ?_⟩
  · simp only [getHashFixed32, List.length_append, List.length_take,
      List.length_replicate]
    omega
  · intro hle
    simp only [getHashFixed32, hlen]
    have hmin : min (nativeDigestBytes t) 32 = nativeDigestBytes t := by omega
    rw [hmin]
    congr 1
    rw [← hlen]
    exact List.take_length _
  · intro hge
    have hmin : min (ext.digest t data).length 32 = 32 := by omega
    simp only [getHashFixed32, hmin]
    simp

theorem hashFixed32_witness :
    (getHashFixed32 extW .SHA1 []).length = 32 ∧
    getHashFixed32 extW .SHA1 []
      = extW.digest .SHA1 [] ++ List.replicate 12 0 ∧
    getHashFixed32 extW .SHA512 [] = (extW.digest .SHA512 []).take 32 :=
  ⟨(hashFixed32_spec extW .SHA1 [] (by decide)).1,
   (hashFixed32_spec extW .SHA1 [] (by decide)).2.1 (by decide),
   (hashFixed32_spec extW .SHA512 [] (by decide)).2.2 (by decide)⟩

/-! ## Claim C8 -/

/-- C8: the event nullifier is
`Poseidon(sk, Poseidon(sk), eventId)` rendered by `toPaddedHex32`, a
`0x`-prefixed 64-hex-character (32-byte) string whenever the hash value
fits 256 bits. -/
theorem eventNullifier_spec (ext : Externals) (sk eventId : Nat)
    (h : ext.poseidon [sk, ext.poseidon [sk], eventId] < 2 ^ 256) :
    getEventNullifier ext sk eventId
      = toPaddedHex32 (ext.poseidon [sk, ext.poseidon [sk], eventId]) ∧
    ∃ s : List Char, s.length = 64 ∧
      getEventNullifier ext sk eventId = "0x" ++ String.mk s := by
  constructor
  · rfl
  · refine ⟨_, ?_, rfl⟩
    have hl := jsHexString_length_le _ h
    simp only [List.length_append, List.length_replicate]
    omega

theorem eventNullifier_spec_witness :
    getEventNullifier extW 3 5
      = toPaddedHex32 (extW.poseidon [3, extW.poseidon [3], 5]) :=
  (eventNullifier_spec extW 3 5 (by norm_num [extW])).1

/-! ## Claim C7 -/

theorem fromOid_unknown (oid : String)
    (h : oid ∉ HashAlgorithm.supportedHashOids) :
    HashAlgorithm.fromOid oid
      = .error ("Not supported ObjectIdentifier for hash algorithm: "
          ++ oid) := by
  simp only [HashAlgorithm.supportedHashOids, List.mem_cons,
    List.not_mem_nil, or_false] at h
  push_neg at h
  obtain ⟨n1, n2, n3, n4, n5, n6, n7, n8, n9, n10, n11, n12, n13, n14⟩ := h
  unfold HashAlgorithm.fromOid
  rw [if_neg n1, if_neg n2, if_neg n3, if_neg n4, if_neg n5, if_neg n6,
    if_neg n7, if_neg n8, if_neg n9, if_neg n10, if_neg n11, if_neg n12,
    if_neg n13, if_neg n14]

theorem fromOID_unknown (oid : String)
    (h : oid ∉ SignatureAlgorithm.supportedSigOids) :
    SignatureAlgorithm.fromOID oid
      = .error ("Not supported ObjectIdentifier for signature algorithm: "
          ++ oid) := by
  simp only [SignatureAlgorithm.supportedSigOids, List.mem_cons,
    List.not_mem_nil, or_false] at h
  push_neg at h
  obtain ⟨n1, n2, n3, n4, n5, n6, n7, n8, n9, n10, n11⟩ := h
  unfold SignatureAlgorithm.fromOID
  rw [if_neg n1, if_neg n2, if_neg n3, if_neg n4, if_neg n5, if_neg n6,
    if_neg n7, if_neg n8, if_neg n9, if_neg n10, if_neg n11]

/-- C7: both OID lookups are total tables with a fatal default: every
OID outside the supported list yields the unsupported-algorithm error
naming the OID (never a silent default), and every supported OID maps to
its algorithm. -/
theorem oidLookup_spec :
    (∀ oid, oid ∉ HashAlgorithm.supportedHashOids →
      HashAlgorithm.fromOid oid
        = .error ("Not supported ObjectIdentifier for hash algorithm: "
            ++ oid)) ∧
    (∀ oid, oid ∉ SignatureAlgorithm.supportedSigOids →
      SignatureAlgorithm.fromOID oid
        = .error ("Not supported ObjectIdentifier for signature algorithm: "
            ++ oid)) ∧
    (∀ oid t, HashAlgorithm.fromOid oid = .ok t →
      oid ∈ HashAlgorithm.supportedHashOids) ∧
    (∀ oid t, SignatureAlgorithm.fromOID oid = .ok t →
      oid ∈ SignatureAlgorithm.supportedSigOids) ∧
    (HashAlgorithm.fromOid "1.3.14.3.2.26" = .ok .SHA1 ∧
     HashAlgorithm.fromOid "1.2.840.113549.1.1.5" = .ok .SHA1 ∧
     HashAlgorithm.fromOid "2.16.840.1.101.3.4.2.4" = .ok .SHA224 ∧
     HashAlgorithm.fromOid "1.2.840.113549.1.1.14" = .ok .SHA224 ∧
     HashAlgorithm.fromOid "1.2.840.10045.4.3.1" = .ok .SHA224 ∧
     HashAlgorithm.fromOid "2.16.840.1.101.3.4.2.1" = .ok .SHA256 ∧
     HashAlgorithm.fromOid "1.2.840.113549.1.1.11" = .ok .SHA256 ∧
     HashAlgorithm.fromOid "1.2.840.10045.4.3.2" = .ok .SHA256 ∧
     HashAlgorithm.fromOid "2.16.840.1.101.3.4.2.2" = .ok .SHA384 ∧
     HashAlgorithm.fromOid "1.2.840.113549.1.1.12" = .ok .SHA384 ∧
     HashAlgorithm.fromOid "1.2.840.10045.4.3.3" = .ok .SHA384 ∧
     HashAlgorithm.fromOid "2.16.840.1.101.3.4.2.3" = .ok .SHA512 ∧
     HashAlgorithm.fromOid "1.2.840.113549.1.1.13" = .ok .SHA512 ∧
     HashAlgorithm.fromOid "1.2.840.10045.4.3.4" = .ok .SHA512) ∧
    (SignatureAlgorithm.fromOID "1.2.840.113549.1.1.5" = .ok .RSA ∧
     SignatureAlgorithm.fromOID "1.2.840.113549.1.1.14" = .ok .RSA ∧
     SignatureAlgorithm.fromOID "1.2.840.113549.1.1.11" = .ok .RSA ∧
     SignatureAlgorithm.fromOID "1.2.840.113549.1.1.12" = .ok .RSA ∧
     SignatureAlgorithm.fromOID "1.2.840.113549.1.1.13" = .ok .RSA ∧
     SignatureAlgorithm.fromOID "1.2.840.113549.1.1.1" = .ok .RSA ∧
     SignatureAlgorithm.fromOID "1.2.840.113549.1.1.10" = .ok .RsaPss ∧
     SignatureAlgorithm.fromOID "1.2.840.10045.4.3.1" = .ok .ECDSA ∧
     SignatureAlgorithm.fromOID "1.2.840.10045.4.3.2" = .ok .ECDSA ∧
     SignatureAlgorithm.fromOID "1.2.840.10045.4.3.3" = .ok .ECDSA ∧
     SignatureAlgorithm.fromOID "1.2.840.10045.4.3.4" = .ok .ECDSA) := by
  refine ⟨fromOid_unknown, fromOID_unknown, ?_, ?_, by decide, by decide⟩
  · intro oid t h
    by_contra hmem
    rw [fromOid_unknown oid hmem] at h
    exact Except.noConfusion h
  · intro oid t h
    by_contra hmem
    rw [fromOID_unknown oid hmem] at h
    exact Except.noConfusion h

theorem oidLookup_spec_witness :
    HashAlgorithm.fromOid "9.9.9"
        = .error ("Not supported ObjectIdentifier for hash algorithm: "
            ++ "9.9.9") ∧
    SignatureAlgorithm.fromOID "9.9.9"
        = .error ("Not supported ObjectIdentifier for signature algorithm: "
            ++ "9.9.9") :=
  ⟨oidLookup_spec.1 "9.9.9" (by decide),
   oidLookup_spec.2.1 "9.9.9" (by decide)⟩

/-! ## Claim C4 -/

/-- C4: the ECDSA derivation throws the unsupported-key error unless the
input is exactly 65 bytes led by `0x04`; under that precondition the
remaining 64 bytes split into 32-byte big-endian X and Y, each reduced
modulo `2 ^ 248`, and the result is the Poseidon hash of the pair. -/
theorem ecdsaKey_spec (ext : Externals) (keyBytes : Bytes) :
    ((keyBytes.length ≠ 65 ∨ keyBytes.head? ≠ some 4) →
      RarimePassport.extractEcdsaPassportKey ext keyBytes
        = .error "UnsupportedPassportKey: Invalid ECDSA key format") ∧
    (keyBytes.length = 65 → keyBytes.head? = some 4 →
      (∀ b ∈ keyBytes, b < 256) →
      RarimePassport.extractEcdsaPassportKey ext keyBytes
        = .ok (ext.poseidon
            [beBytesToNat ((keyBytes.drop 1).take 32) % 2 ^ 248,
             beBytesToNat ((keyBytes.drop 33).take 32) % 2 ^ 248])) := by
  constructor
  · intro h
    simp only [RarimePassport.extractEcdsaPassportKey]
    rw [if_pos h]
  · intro h1 h2 h3
    simp only [RarimePassport.extractEcdsaPassportKey]
    rw [if_neg (by push_neg; exact ⟨h1, h2⟩)]
    have hx : ∀ b ∈ (keyBytes.drop 1).take 32, b < 256 := fun b hb =>
      h3 b (List.drop_subset _ _ (List.take_subset _ _ hb))
    have hy : ∀ b ∈ (keyBytes.drop 33).take 32, b < 256 := fun b hb =>
      h3 b (List.drop_subset _ _ (List.take_subset _ _ hb))
    rw [hexToNat_bytesToHex _ hx, hexToNat_bytesToHex _ hy]

/-! ## Claim C3 -/

theorem pack1024_eq (t : Nat) (ht : t < 2 ^ 1024) :
    (t / 2 ^ 224 / 2 ^ 200 / 2 ^ 200 / 2 ^ 200 % 2 ^ 200) * 2 ^ 824
      + (t / 2 ^ 224 / 2 ^ 200 / 2 ^ 200 % 2 ^ 200) * 2 ^ 624
      + (t / 2 ^ 224 / 2 ^ 200 % 2 ^ 200) * 2 ^ 424
      + (t / 2 ^ 224 % 2 ^ 200) * 2 ^ 224
      + t % 2 ^ 224 = t := by
  have e0 := Nat.div_add_mod t (2 ^ 224)
  have e1 := Nat.div_add_mod (t / 2 ^ 224) (2 ^ 200)
  have e2 := Nat.div_add_mod (t / 2 ^ 224 / 2 ^ 200) (2 ^ 200)
  have e3 := Nat.div_add_mod (t / 2 ^ 224 / 2 ^ 200 / 2 ^ 200) (2 ^ 200)
  have h4 : t / 2 ^ 224 / 2 ^ 200 / 2 ^ 200 / 2 ^ 200 < 2 ^ 200 := by
    rw [Nat.div_div_eq_div_mul, Nat.div_div_eq_div_mul,
      Nat.div_div_eq_div_mul, Nat.div_lt_iff_lt_mul (by positivity)]
    calc t < 2 ^ 1024 := ht
      _ = 2 ^ 200 * (2 ^ 224 * 2 ^ 200 * 2 ^ 200 * 2 ^ 200) := by norm_num
  rw [Nat.mod_eq_of_lt h4]
  conv_rhs => rw [← e0, ← e1, ← e2, ← e3]
  ring

/-- C3: for every RSA modulus of at least 1024 bits the derivation
succeeds with the Poseidon hash of the 5 emitted chunks, there are
exactly 5 of them, and the weighted sum of the emitted chunks — most
significant chunk first, with weights `2^824, 2^624, 2^424, 2^224, 1`
fixed by the documented sizes `[224,200,200,200,200]` and the reversed
emission order — reconstructs the top-1024-bit window of the modulus
exactly. -/
theorem rsaChunks_roundTrip (ext : Externals) (modulus expo : Nat)
    (h : 1024 ≤ RarimePassport.jsBitLength modulus) :
    RarimePassport.extractRsaPassportKey ext modulus expo
        = .ok (ext.poseidon (RarimePassport.rsaChunks modulus)) ∧
    (RarimePassport.rsaChunks modulus).length = 5 ∧
    (RarimePassport.rsaChunks modulus).getD 0 0 * 2 ^ 824
      + (RarimePassport.rsaChunks modulus).getD 1 0 * 2 ^ 624
      + (RarimePassport.rsaChunks modulus).getD 2 0 * 2 ^ 424
      + (RarimePassport.rsaChunks modulus).getD 3 0 * 2 ^ 224
      + (RarimePassport.rsaChunks modulus).getD 4 0
      = modulus / 2 ^ (RarimePassport.jsBitLength modulus - 1024) := by
  have hm0 : modulus ≠ 0 := by
    intro h0
    rw [h0] at h
    simp [RarimePassport.jsBitLength] at h
  have hsize : RarimePassport.jsBitLength modulus = Nat.size modulus := by
    simp [RarimePassport.jsBitLength, hm0]
  have htlt : modulus / 2 ^ (RarimePassport.jsBitLength modulus - 1024)
      < 2 ^ 1024 := by
    rw [Nat.div_lt_iff_lt_mul (by positivity)]
    calc modulus < 2 ^ Nat.size modulus := Nat.lt_size_self modulus
      _ ≤ 2 ^ 1024 * 2 ^ (RarimePassport.jsBitLength modulus - 1024) := by
          rw [← pow_add]
          apply Nat.pow_le_pow_right (by norm_num)
          omega
  have hchunks : RarimePassport.rsaChunks modulus
      = [modulus / 2 ^ (RarimePassport.jsBitLength modulus - 1024)
            / 2 ^ 224 / 2 ^ 200 / 2 ^ 200 / 2 ^ 200 % 2 ^ 200,
         modulus / 2 ^ (RarimePassport.jsBitLength modulus - 1024)
            / 2 ^ 224 / 2 ^ 200 / 2 ^ 200 % 2 ^ 200,
         modulus / 2 ^ (RarimePassport.jsBitLength modulus - 1024)
            / 2 ^ 224 / 2 ^ 200 % 2 ^ 200,
         modulus / 2 ^ (RarimePassport.jsBitLength modulus - 1024)
            / 2 ^ 224 % 2 ^ 200,
         modulus / 2 ^ (RarimePassport.jsBitLength modulus - 1024)
            % 2 ^ 224] := rfl
  refine ⟨?_, ?_, ?_⟩
  · simp only [RarimePassport.extractRsaPassportKey]
    rw [if_neg (by omega)]
  · rw [hchunks]
    rfl
  · rw [hchunks]
    simp only [List.getD, List.getElem?_cons_zero, List.getElem?_cons_succ,
      Option.getD_some]
    exact pack1024_eq _ htlt

theorem rsaChunks_roundTrip_witness :
    RarimePassport.extractRsaPassportKey extW (2 ^ 1023) 65537
        = .ok (extW.poseidon (RarimePassport.rsaChunks (2 ^ 1023))) ∧
    (RarimePassport.rsaChunks (2 ^ 1023)).getD 0 0 * 2 ^ 824
      + (RarimePassport.rsaChunks (2 ^ 1023)).getD 1 0 * 2 ^ 624
      + (RarimePassport.rsaChunks (2 ^ 1023)).getD 2 0 * 2 ^ 424
      + (RarimePassport.rsaChunks (2 ^ 1023)).getD 3 0 * 2 ^ 224
      + (RarimePassport.rsaChunks (2 ^ 1023)).getD 4 0
      = 2 ^ 1023 / 2 ^ (RarimePassport.jsBitLength (2 ^ 1023) - 1024) :=
  ⟨(rsaChunks_roundTrip extW (2 ^ 1023) 65537
      (by simp [RarimePassport.jsBitLength, Nat.size_pow])).1,
   (rsaChunks_roundTrip extW (2 ^ 1023) 65537
      (by simp [RarimePassport.jsBitLength, Nat.size_pow])).2.2⟩

/-! ## Claim C5 -/

theorem packFold_combined (hb : Bytes) :
    ∀ (is : List Nat) (out acc accBits : Nat),
      accBits < 64 → (accBits = 0 → acc = 0) →
      ∃ o a b,
        is.foldl (RarimePassport.packStep hb) (out, acc, accBits) = (o, a, b) ∧
        b < 64 ∧ (b = 0 → a = 0) ∧
        o * 2 ^ b + a
          = is.foldl (fun s i => 2 * s + RarimePassport.digestBit hb i)
              (out * 2 ^ accBits + acc) := by
  intro is
  induction is with
  | nil =>
      intro out acc accBits h1 h2
      exact ⟨out, acc, accBits, rfl, h1, h2, rfl⟩
  | cons i is ih =>
      intro out acc accBits h1 h2
      simp only [List.foldl_cons]
      by_cases h64 : accBits + 1 = 64
      · have hstep : RarimePassport.packStep hb (out, acc, accBits) i
            = (out * 2 ^ 64 + (acc * 2 + RarimePassport.digestBit hb i),
               0, 0) := by
          simp [RarimePassport.packStep, h64]
        rw [hstep]
        obtain ⟨o, a, b, heq, hlt, hz, hcomb⟩ :=
          ih (out * 2 ^ 64 + (acc * 2 + RarimePassport.digestBit hb i)) 0 0
            (by norm_num) (fun _ => rfl)
        refine ⟨o, a, b, heq, hlt, hz, ?_⟩
        rw [hcomb]
        congr 1
        have h63 : accBits = 63 := by omega
        subst h63
        ring
      · have hstep : RarimePassport.packStep hb (out, acc, accBits) i
            = (out, acc * 2 + RarimePassport.digestBit hb i, accBits + 1) := by
          simp [RarimePassport.packStep, h64]
        rw [hstep]
        obtain ⟨o, a, b, heq, hlt, hz, hcomb⟩ :=
          ih out (acc * 2 + RarimePassport.digestBit hb i) (accBits + 1)
            (by omega) (by omega)
        refine ⟨o, a, b, heq, hlt, hz, ?_⟩
        rw [hcomb]
        congr 1
        rw [pow_succ]
        ring

theorem bitFold_reverseRange (hb : Bytes) :
    ∀ (n : Nat) (a : Nat),
      (List.range n).reverse.foldl
          (fun s i => 2 * s + RarimePassport.digestBit hb i) a
        = a * 2 ^ n
          + ∑ i ∈ Finset.range n, RarimePassport.digestBit hb i * 2 ^ i := by
  intro n
  induction n with
  | zero => intro a; simp
  | succ n ih =>
      intro a
      rw [List.range_succ, List.reverse_append]
      simp only [List.reverse_singleton, List.singleton_append,
        List.foldl_cons]
      rw [ih, Finset.sum_range_succ]
      ring

theorem packBits252_eq_reversed (hb : Bytes) :
    RarimePassport.packBits252 hb = RarimePassport.reversedPacked252 hb := by
  obtain ⟨o, a, b, heq, hlt, hz, hcomb⟩ :=
    packFold_combined hb (List.range 252).reverse 0 0 0 (by norm_num)
      (fun _ => rfl)
  rw [bitFold_reverseRange hb 252] at hcomb
  unfold RarimePassport.packBits252
  rw [heq]
  simp only
  have hfinal : (if 0 < b then o * 2 ^ b + a else o) = o * 2 ^ b + a := by
    split
    · rfl
    · rename_i hnot
      have hb0 : b = 0 := by omega
      rw [hz hb0, hb0]
      simp
  rw [hfinal, hcomb]
  simp [RarimePassport.reversedPacked252]

/-- C5 (amended): `getPassportHash` is the Poseidon hash of the single
value obtained by digesting the extracted signed attributes with the
OID-resolved hash, taking the most-significant 252 bits of the fixed
32-byte digest, and packing them in reversed bit order — the window's
least-significant bit is consumed first and becomes the packed value's
most-significant bit, so the packed integer is the bit-reversal of the
top-252-bit window (digest bit `i`, MSB-first indexing, gets binary
weight `2 ^ i`), not the claimed MSB-first repacking. -/
theorem passportHash_packs_reversed (ext : Externals) (sod sa : Bytes)
    (oid : String) (t : HashAlgorithmType)
    (hsa : ext.sodSignedAttrs sod = .ok sa)
    (hoid : RarimePassport.getSignatureAlgorithm ext sod = .ok oid)
    (ht : HashAlgorithm.fromOid oid = .ok t) :
    RarimePassport.getPassportHash ext sod
      = .ok (ext.poseidon
          [RarimePassport.reversedPacked252 (getHashFixed32 ext t sa)]) := by
  rw [← packBits252_eq_reversed]
  simp only [RarimePassport.getPassportHash, bind, Except.bind, hsa, hoid, ht,
    pure, Except.pure]

theorem passportHash_packs_reversed_witness :
    RarimePassport.getPassportHash extW [5]
      = .ok (extW.poseidon
          [RarimePassport.reversedPacked252 (getHashFixed32 extW .SHA256 [5])]) :=
  passportHash_packs_reversed extW [5] [5] "1.2.840.113549.1.1.11" .SHA256
    rfl (by decide) (by decide)

set_option maxRecDepth 100000 in
/-- C5 counterexample: for the concrete digest `80 00 ... 00` (only the
overall most-significant bit set) the code packs the value 1, while the
claimed MSB-first repacking of the top 252 bits gives `2 ^ 251`; so
`getPassportHash` is not the Poseidon hash of the claim-described
value. -/
theorem passportHash_msbFirst_counterexample :
    RarimePassport.getPassportHash extC []
      ≠ .ok (extC.poseidon
          [RarimePassport.msbFirstPacked252 (getHashFixed32 extC .SHA256 [])]) := by
  decide

theorem ecdsaKey_spec_witness :
    RarimePassport.extractEcdsaPassportKey extW ecdsaKeyW
        = .ok (extW.poseidon
            [beBytesToNat ((ecdsaKeyW.drop 1).take 32) % 2 ^ 248,
             beBytesToNat ((ecdsaKeyW.drop 33).take 32) % 2 ^ 248]) ∧
    RarimePassport.extractEcdsaPassportKey extW [4, 7]
        = .error "UnsupportedPassportKey: Invalid ECDSA key format" :=
  ⟨(ecdsaKey_spec extW ecdsaKeyW).2 (by decide) (by decide) (by decide),
   (ecdsaKey_spec extW [4, 7]).1 (by decide)⟩

/-! ## Claim C9 -/

theorem runChecks_take (cs : List (VoteCheck × Bool × String)) :
    ∃ k, (runChecks cs).2 = (cs.map fun c => c.1).take k := by
  induction cs with
  | nil => exact ⟨0, rfl⟩
  | cons c cs ih =>
      obtain ⟨name, failed, msg⟩ := c
      simp only [runChecks]
      split
      · exact ⟨1, rfl⟩
      · obtain ⟨k, hk⟩ := ih
        exact ⟨k + 1, by simp [hk]⟩

/-- C9: a proposal whose voting window has not started fails the
validation flow with the "not started" error with only the first timing
guard evaluated — in particular no other criterion is evaluated and the
duplicate-vote SMT is not queried — and on every input the evaluated
guards are an initial segment of the canonical order (timing → identity
metadata → citizenship → sex → birth bounds → expiration bound → SMT
duplicate check), so the declared criteria are always checked in exactly
the documented relative order. -/
theorem validateVoting_shortCircuit (now : Nat) (p : ProposalInfo)
    (idMeta : IdentityMeta) (mrz : MrzNums) (alreadyVoted : Bool)
    (h : now < p.startTimestamp) :
    (validateVoting now p idMeta mrz alreadyVoted).1
        = .error "Voting has not started." ∧
    (validateVoting now p idMeta mrz alreadyVoted).2 = [.timingStart] ∧
    VoteCheck.smtDuplicate ∉ (validateVoting now p idMeta mrz alreadyVoted).2 ∧
    (∀ (n2 : Nat) (p2 : ProposalInfo) (i2 : IdentityMeta) (m2 : MrzNums)
        (v2 : Bool), ∃ k,
      (validateVoting n2 p2 i2 m2 v2).2 = voteCheckOrder.take k) := by
  have he : validateVoting now p idMeta mrz alreadyVoted
      = (.error "Voting has not started.", [.timingStart]) := by
    simp [validateVoting, voteCheckList, runChecks, h]
  refine ⟨by rw [he], by rw [he], by rw [he]; simp, ?_⟩
  intro n2 p2 i2 m2 v2
  have hmap : ((voteCheckList n2 p2 i2 m2 v2).map fun c => c.1)
      = voteCheckOrder := by
    simp [voteCheckList, voteCheckOrder]
  obtain ⟨k, hk⟩ := runChecks_take (voteCheckList n2 p2 i2 m2 v2)
  exact ⟨k, by rw [← hmap]; exact hk⟩

theorem validateVoting_shortCircuit_witness :
    (validateVoting 5 ⟨⟨[7], 3, 1, 1, 1, 0, 0⟩, 10, 100⟩ ⟨9, 9⟩
        ⟨1, 2, 3, 4⟩ true).1
      = .error "Voting has not started." ∧
    (validateVoting 5 ⟨⟨[7], 3, 1, 1, 1, 0, 0⟩, 10, 100⟩ ⟨9, 9⟩
        ⟨1, 2, 3, 4⟩ true).2
      = [.timingStart] :=
  ⟨(validateVoting_shortCircuit 5 _ _ _ _ (by decide)).1,
   (validateVoting_shortCircuit 5 ⟨⟨[7], 3, 1, 1, 1, 0, 0⟩, 10, 100⟩ ⟨9, 9⟩
      ⟨1, 2, 3, 4⟩ true (by decide)).2.1⟩

/-! ## Claim C10 -/

/-- C10: a document whose status check classifies the registry's active
identity as registered-with-other-key makes `registerIdentity` throw
immediately after the status read — the trace is exactly the status
check, so no circuit is selected, the prover is never invoked and no
relayer request is made for the attempt. -/
theorem registerIdentity_otherPk (env : RegEnv)
    (h : getDocumentStatus env.activeIdentity env.userPrivateKey
        = .registeredWithOtherPk) :
    (registerIdentity env).1
        = .error "This document was registered with other Private Key" ∧
    (registerIdentity env).2 = [.checkStatus] ∧
    RegStep.selectCircuit ∉ (registerIdentity env).2 ∧
    RegStep.proveCall ∉ (registerIdentity env).2 ∧
    RegStep.verifySodCall ∉ (registerIdentity env).2 ∧
    RegStep.sendTxCall ∉ (registerIdentity env).2 := by
  have he : registerIdentity env
      = (.error "This document was registered with other Private Key",
         [.checkStatus]) := by
    simp [registerIdentity, h]
  rw [he]
  exact ⟨rfl, rfl, by simp, by simp, by simp, by simp⟩

theorem registerIdentity_otherPk_witness :
    (registerIdentity regEnvW).1
        = .error "This document was registered with other Private Key" ∧
    (registerIdentity regEnvW).2 = [.checkStatus] :=
  ⟨(registerIdentity_otherPk regEnvW (by decide)).1,
   (registerIdentity_otherPk regEnvW (by decide)).2.1⟩

end Rarime
